import Mathlib

/-!
Verification of the ai-video-maker pipeline (src/app.py, src/video_maker_lib.py).

Shallow embedding: the filesystem is an association list from paths to file
contents (a write shadows earlier entries, as an overwrite does); each asset
fetcher is a function from a scene, an API oracle and a filesystem to the new
filesystem together with the list of remote API calls it issued.  The
four remote services are modelled as an `Api` record of pure response
functions; the generated-video fetcher's polling loop consumes a list of
successive poll responses (status code, body) and accounts the 20-second
sleep before each poll.
-/

/-- A filesystem: association list from path to file bytes (modelled as
`String`).  `fsWrite` prepends, so a later write shadows an earlier one. -/
def FS : Type := List (String × String)

instance : DecidableEq FS := by
  unfold FS
  infer_instance

def fsHas (fs : FS) (p : String) : Bool :=
  (List.lookup p fs).isSome

def fsWrite (fs : FS) (p : String) (v : String) : FS :=
  (p, v) :: fs

def fsRead (fs : FS) (p : String) : Option String :=
  List.lookup p fs

/-- A scene record of the shot list (src/video_maker_lib.py prompt contract,
lines 23-27).  `visual_type` is an `Option` because app.py line 81 reads it
with `scene.get`, which yields `None` when the key is missing. -/
structure Scene where
  scene_number : Int
  narration_text : String
  visual_prompt : String
  visual_type : Option String
deriving DecidableEq, Repr

/-- `audio_clips/scene_<n>.mp3` (video_maker_lib.py line 58 and 161). -/
def audioPath (n : Int) : String := s!"audio_clips/scene_{n}.mp3"

/-- `visual_assets/scene_<n>.mp4` (video_maker_lib.py lines 92, 114, 162). -/
def videoPath (n : Int) : String := s!"visual_assets/scene_{n}.mp4"

/-- `visual_assets/scene_<n>.png` (video_maker_lib.py lines 74, 163). -/
def imagePath (n : Int) : String := s!"visual_assets/scene_{n}.png"

/-- One element of Pexels `video_files` (download_stock_video, line 103):
the code reads only `link`; `height` records the variant's quality, which
the code ignores. -/
structure VideoFile where
  link : String
  height : Nat
deriving DecidableEq, Repr

/-- One element of the Pexels `videos` result list. -/
structure PexelsVideo where
  video_files : List VideoFile
deriving DecidableEq, Repr

/-- The JSON body of a Pexels search response (line 100). -/
structure PexelsSearchResponse where
  videos : List PexelsVideo
deriving DecidableEq, Repr

/-- Oracle for the remote services.  Each field is the (deterministic)
response the service gives to a request; `videoPoll` gives the successive
`(status_code, body)` poll responses for a generation id. -/
structure Api where
  tts : String → String
  imageGen : String → String
  stockSearch : String → PexelsSearchResponse
  httpGet : String → String
  videoSubmit : String → String
  videoPoll : String → List (Nat × String)

/-- A remote API call issued by a fetcher, tagged with the scene number it
serves.  Each constructor corresponds to one network request in the source. -/
inductive ApiCall where
  | tts (sceneNum : Int)
  | imageGen (sceneNum : Int)
  | stockSearch (sceneNum : Int)
  | stockDownload (sceneNum : Int)
  | videoSubmit (sceneNum : Int)
  | videoPoll (sceneNum : Int)
deriving DecidableEq, Repr

/-- `generate_audio` (video_maker_lib.py lines 55-68): early return when the
target file exists; otherwise one ElevenLabs call, bytes streamed to disk. -/
def generate_audio (api : Api) (scene : Scene) (fs : FS) : FS × List ApiCall :=
  let output_path := audioPath scene.scene_number
  if fsHas fs output_path then (fs, [])
  else
    (fsWrite fs output_path (api.tts scene.narration_text),
     [ApiCall.tts scene.scene_number])

/-- `generate_image` (lines 71-87): early return when the target exists;
otherwise one Stability image call, response bytes written. -/
def generate_image (api : Api) (scene : Scene) (fs : FS) : FS × List ApiCall :=
  let output_path := imagePath scene.scene_number
  if fsHas fs output_path then (fs, [])
  else
    (fsWrite fs output_path (api.imageGen scene.visual_prompt),
     [ApiCall.imageGen scene.scene_number])

/-- `download_stock_video` (lines 89-109): early return when the target
exists; otherwise search Pexels; empty `videos` list is a silent no-op
(line 101); otherwise download `videos[0].video_files[0].link` and write it.
An empty `video_files` list raises IndexError, caught by the handler at
line 108, leaving the filesystem unchanged. -/
def download_stock_video (api : Api) (scene : Scene) (fs : FS) :
    FS × List ApiCall :=
  let n := scene.scene_number
  let output_path := videoPath n
  if fsHas fs output_path then (fs, [])
  else
    let results := api.stockSearch scene.visual_prompt
    match results.videos with
    | [] => (fs, [ApiCall.stockSearch n])
    | v :: _ =>
      match v.video_files with
      | [] => (fs, [ApiCall.stockSearch n])
      | f :: _ =>
        (fsWrite fs output_path (api.httpGet f.link),
         [ApiCall.stockSearch n, ApiCall.stockDownload n])

/-- Outcome of the polling loop in `generate_video` (lines 126-137). -/
inductive PollStatus where
  | done
  | raised (code : Nat)
  | pending
deriving DecidableEq, Repr

/-- State after running the poll loop: filesystem, loop outcome, seconds
slept, and number of poll requests issued. -/
structure PollRun where
  fs : FS
  status : PollStatus
  elapsed : Nat
  polls : Nat
deriving DecidableEq

/-- The `while True` polling loop of `generate_video` (lines 126-137), run
over the list of successive poll responses.  Each iteration first sleeps 20
seconds (line 127) then issues one GET.  Status 200 writes the body and
breaks; status 202 loops again; `raise_for_status` (line 137) raises only
for codes >= 400, so any other code below 400 falls through and loops
again.  An exhausted response list is the still-polling (`pending`) state. -/
def videoPollLoop (output_path : String) :
    List (Nat × String) → FS → Nat → Nat → PollRun
  | [], fs, elapsed, polls => ⟨fs, PollStatus.pending, elapsed, polls⟩
  | (code, body) :: rest, fs, elapsed, polls =>
    let elapsed := elapsed + 20
    let polls := polls + 1
    if code = 200 then
      ⟨fsWrite fs output_path body, PollStatus.done, elapsed, polls⟩
    else if code = 202 then
      videoPollLoop output_path rest fs elapsed polls
    else if 400 ≤ code then
      ⟨fs, PollStatus.raised code, elapsed, polls⟩
    else
      videoPollLoop output_path rest fs elapsed polls

/-- `generate_video` (lines 111-139): early return when the target exists;
otherwise submit the async job and run the polling loop on its responses.
A raised status is caught by the handler at line 138 (terminal failure for
the scene, filesystem unchanged). -/
def generate_video (api : Api) (scene : Scene) (fs : FS) : FS × List ApiCall :=
  let n := scene.scene_number
  let output_path := videoPath n
  if fsHas fs output_path then (fs, [])
  else
    let generation_id := api.videoSubmit scene.visual_prompt
    let run := videoPollLoop output_path (api.videoPoll generation_id) fs 0 0
    (run.fs, ApiCall.videoSubmit n :: List.replicate run.polls (ApiCall.videoPoll n))

/-- One unit of work submitted to the thread pool (app.py lines 79-87). -/
inductive PoolTask where
  | audio (s : Scene)
  | image (s : Scene)
  | stock (s : Scene)
  | genVideo (s : Scene)
deriving DecidableEq, Repr

/-- The visual-task dispatch rule (app.py lines 81-87): `image` and
`stock_footage` each select their fetcher; every other value of
`visual_type` — including a missing key — falls to `generate_video`. -/
def visualTask (s : Scene) : PoolTask :=
  if s.visual_type = some "image" then PoolTask.image s
  else if s.visual_type = some "stock_footage" then PoolTask.stock s
  else PoolTask.genVideo s

/-- Per scene, the dispatch loop submits exactly one audio task and one
visual task (app.py lines 80-87). -/
def sceneTasks (s : Scene) : List PoolTask := [PoolTask.audio s, visualTask s]

/-- All tasks submitted for a shot list, in submission order. -/
def dispatchTasks (shot : List Scene) : List PoolTask :=
  shot.flatMap sceneTasks

def runTask (api : Api) (t : PoolTask) (fs : FS) : FS × List ApiCall :=
  match t with
  | PoolTask.audio s => generate_audio api s fs
  | PoolTask.image s => generate_image api s fs
  | PoolTask.stock s => download_stock_video api s fs
  | PoolTask.genVideo s => generate_video api s fs

/-- Run the submitted tasks in order, threading the filesystem and
concatenating the issued API calls.  (The pool runs them concurrently; the
filesystem is the only shared state and each fetcher touches only its own
target path, so a sequential schedule is faithful for the properties
proved here.) -/
def runTasks (api : Api) : List PoolTask → FS → FS × List ApiCall
  | [], fs => (fs, [])
  | t :: ts, fs =>
    let r1 := runTask api t fs
    let r2 := runTasks api ts r1.1
    (r2.1, r1.2 ++ r2.2)

/-- The Parallel Dispatcher over a shot list (app.py lines 77-92). -/
def runDispatcher (api : Api) (shot : List Scene) (fs : FS) :
    FS × List ApiCall :=
  runTasks api (dispatchTasks shot) fs

/-! ### Scene Breakdown response handling (app.py lines 44-59) -/

/-- The parsed JSON value `generate_scene_breakdown` can return.  The handler
(app.py lines 50-53) distinguishes: a dict that has a `"scenes"` key (whose
value the claims compare as a list of scene records), a dict without that
key, a bare list, or any other JSON value. -/
inductive BreakdownData where
  | objWithScenes (scenes : List Scene)
  | objWithoutScenes
  | arr (scenes : List Scene)
  | other
deriving DecidableEq, Repr

/-- Lines 48-53: extract `scenes_list` from the breakdown result (`none`
models the `None` returned by `generate_scene_breakdown` on error). -/
def extract_scenes_list : Option BreakdownData → List Scene
  | some (BreakdownData.objWithScenes scenes) => scenes
  | some (BreakdownData.arr scenes) => scenes
  | _ => []

/-- Lines 55-59: a non-empty `scenes_list` becomes the shot list
(`st.session_state.shot_list_df`); an empty one is the error branch,
producing no shot list. -/
def shotListOf (d : Option BreakdownData) : Option (List Scene) :=
  let scenes_list := extract_scenes_list d
  if scenes_list.isEmpty then none else some scenes_list

/-! ### Video Assembler (video_maker_lib.py lines 150-198) -/

/-- The sort key relation of `sorted(shot_list, key=lambda x: x['scene_number'])`
(line 159). -/
def sceneLE (a b : Scene) : Prop := a.scene_number ≤ b.scene_number

instance : DecidableRel sceneLE := fun x y => Int.decLe x.scene_number y.scene_number

instance : IsTotal Scene sceneLE := ⟨fun x y => Int.le_total x.scene_number y.scene_number⟩

instance : IsTrans Scene sceneLE := ⟨fun _ _ _ h1 h2 => le_trans h1 h2⟩

/-- `sorted(shot_list, key=lambda x: x['scene_number'])` (line 159): a stable
sort ascending by scene number (Python's sort is stable; so is insertion
sort, and any two stable sorts by the same key agree pointwise). -/
def sortShotList (shot : List Scene) : List Scene :=
  List.insertionSort sceneLE shot

/-- A scene survives the assembly loop's two `continue` guards (lines 165 and
173) iff its audio file exists and a video or an image file exists. -/
def eligible (fs : FS) (s : Scene) : Bool :=
  fsHas fs (audioPath s.scene_number) &&
    (fsHas fs (videoPath s.scene_number) || fsHas fs (imagePath s.scene_number))

/-- The scene loop of `assemble_video` (lines 158-182): iterate the sorted
list; `continue` when the audio file is missing (line 165); prefer the video
file, else the image file (lines 169-172); `continue` when neither exists
(line 173); otherwise append the scene's composite clip.  The output is the
ordered list of scenes whose clips are appended (each clip is built from
exactly one scene, and the later compositing steps, lines 186-198, keep the
list order). -/
def buildClips (fs : FS) : List Scene → List Scene
  | [] => []
  | s :: rest =>
    if fsHas fs (audioPath s.scene_number) = false then buildClips fs rest
    else if fsHas fs (videoPath s.scene_number) then s :: buildClips fs rest
    else if fsHas fs (imagePath s.scene_number) then s :: buildClips fs rest
    else buildClips fs rest

/-- `assemble_video` (lines 150-198): sort, build the per-scene clips, and
return early — writing no output file — when no clips were built (line 184).
`none` models "no output file written"; `some clips` models the written
final video with its ordered scene content. -/
def assemble_video (fs : FS) (shot : List Scene) : Option (List Scene) :=
  let scene_clips := buildClips fs (sortShotList shot)
  if scene_clips.isEmpty then none else some scene_clips

/-! ### Ken-Burns clip model (video_maker_lib.py lines 143-148) -/

/-- A video clip as the Assembler manipulates it: frame width and height at
each sampled time, and a duration (moviepy clips with time-varying size). -/
structure Clip where
  frameW : ℚ → ℕ
  frameH : ℚ → ℕ
  duration : ℚ

/-- `ImageClip(image_path).set_duration(audio_duration)` (line 145): constant
frames of the source image's size. -/
def imageClipOf (w h : ℕ) (dur : ℚ) : Clip :=
  ⟨fun _ => w, fun _ => h, dur⟩

/-- `clip.fx(vfx.resize, factor)` with a time-dependent factor (line 146):
moviepy computes the new size as `int(factor * dim)` per dimension
(truncation, i.e. floor for non-negative values). -/
def resizeFx (c : Clip) (factor : ℚ → ℚ) : Clip :=
  ⟨fun t => Nat.floor ((c.frameW t : ℚ) * factor t),
   fun t => Nat.floor ((c.frameH t : ℚ) * factor t),
   c.duration⟩

/-- `clip.crop(width=w, height=h, x_center=…, y_center=…)` (line 148): a
centered slice of `w × h` pixels; slicing clamps at the frame border, so the
result is the requested size capped by the underlying frame size. -/
def cropCenter (c : Clip) (w h : ℕ) : Clip :=
  ⟨fun t => min w (c.frameW t), fun t => min h (c.frameH t), c.duration⟩

/-- `create_animated_image_clip` (lines 143-148) for a source image of size
`w × h`: zoom factor `1 + 0.1 * (t / audio_duration)`, then center-crop back
to `w × h`. -/
def create_animated_image_clip (w h : ℕ) (audio_duration : ℚ) : Clip :=
  let img_clip := imageClipOf w h audio_duration
  let zoomed_clip :=
    resizeFx img_clip (fun t => 1 + (1 / 10) * (t / audio_duration))
  cropCenter zoomed_clip w h

/-! ### Spec-side definition for the stock-video quality claim -/

/-- Modelled from the spec: "downloads its highest-available-quality file"
(spec section 4.2) — the link of the maximal-quality variant among the first
result's files, quality measured by the variant's pixel height. -/
def highestQualityLink (r : PexelsSearchResponse) : Option String :=
  match r.videos with
  | [] => none
  | v :: _ =>
    match v.video_files.argmax VideoFile.height with
    | none => none
    | some f => some f.link

/-! ### Helper lemmas -/

theorem fsHas_fsWrite (fs : FS) (p q v : String) (h : fsHas fs p = true) :
    fsHas (fsWrite fs q v) p = true := by
  unfold fsHas fsWrite at *
  rw [List.lookup] at *
  cases hpq : p == q with
  | true => simp
  | false => simpa [hpq] using h

theorem buildClips_eq_filter (fs : FS) (l : List Scene) :
    buildClips fs l = l.filter (eligible fs) := by
  induction l with
  | nil => rfl
  | cons s rest ih =>
    rw [buildClips, List.filter_cons]
    cases ha : fsHas fs (audioPath s.scene_number) <;>
      cases hv : fsHas fs (videoPath s.scene_number) <;>
        cases hi : fsHas fs (imagePath s.scene_number) <;>
          simp [eligible, ha, hv, hi, ih]

theorem mem_buildClips_sorted (fs : FS) (shot : List Scene) (s : Scene) :
    s ∈ buildClips fs (sortShotList shot) ↔ s ∈ shot ∧ eligible fs s = true := by
  rw [buildClips_eq_filter, List.mem_filter, sortShotList, List.mem_insertionSort]

/-! ### Concrete fixtures for witnesses and counterexamples -/

/-- A three-scene shot list in numeric order. -/
def shot3scenes : List Scene :=
  [⟨1, "a", "p", some "image"⟩, ⟨2, "b", "q", some "image"⟩,
   ⟨3, "c", "r", some "video"⟩]

/-- The same three scenes listed out of numeric order `[3, 1, 2]`. -/
def shot312 : List Scene :=
  [⟨3, "c", "r", some "video"⟩, ⟨1, "a", "p", some "image"⟩,
   ⟨2, "b", "q", some "image"⟩]

/-- Assets where scenes 1 and 3 are complete but scene 2 lacks its audio
file. -/
def fs3scenes : FS :=
  [(audioPath 1, "a1"), (imagePath 1, "i1"),
   (audioPath 3, "a3"), (videoPath 3, "v3"),
   (imagePath 2, "i2")]

/-- Assets where all three scenes are complete. -/
def fsComplete : FS :=
  [(audioPath 1, "a1"), (imagePath 1, "i1"),
   (audioPath 2, "a2"), (imagePath 2, "i2"),
   (audioPath 3, "a3"), (videoPath 3, "v3")]

/-- A concrete API oracle: the stock search finds one video with a
low-quality variant listed before a high-quality one. -/
def apiStub : Api where
  tts := fun text => String.append "tts:" text
  imageGen := fun prompt => String.append "img:" prompt
  stockSearch := fun _ => ⟨[⟨[⟨"low.mp4", 360⟩, ⟨"high.mp4", 1080⟩]⟩]⟩
  httpGet := fun url => String.append "GET:" url
  videoSubmit := fun _ => "gen-1"
  videoPoll := fun _ => [(202, "x"), (200, "videobytes")]

/-- The same oracle with a stock search returning zero results. -/
def apiStubEmpty : Api :=
  { apiStub with stockSearch := fun _ => ⟨[]⟩ }

/-- A stock-footage scene. -/
def sceneStock : Scene := ⟨5, "narr", "city", some "stock_footage"⟩

/-- The target path of each remote API call: the file its fetcher writes.
Every fetcher issues calls only for its own target file. -/
def callTarget : ApiCall → String
  | ApiCall.tts n => audioPath n
  | ApiCall.imageGen n => imagePath n
  | ApiCall.stockSearch n => videoPath n
  | ApiCall.stockDownload n => videoPath n
  | ApiCall.videoSubmit n => videoPath n
  | ApiCall.videoPoll n => videoPath n

/-! ### Claim theorems -/

/-- C6: a bare list of scene records and a wrapper object with a `scenes` key
containing the identical records yield identical shot lists in the Generate
Shot List handler (app.py lines 48-59). -/
theorem breakdown_shapes_agree (scenes : List Scene) :
    shotListOf (some (BreakdownData.objWithScenes scenes)) =
      shotListOf (some (BreakdownData.arr scenes)) := rfl

/-- C10: the dispatch loop (app.py lines 79-87) submits exactly two tasks per
scene, the first being the audio task; the visual task falls to the
generated-video fetcher for every `visual_type` that is not exactly
`"image"` and not exactly `"stock_footage"`, including a missing value; and
the task list for a shot list has exactly two tasks per scene. -/
theorem dispatch_two_tasks_default_video (s : Scene) (shot : List Scene)
    (h1 : s.visual_type ≠ some "image")
    (h2 : s.visual_type ≠ some "stock_footage") :
    sceneTasks s = [PoolTask.audio s, PoolTask.genVideo s] ∧
    (∀ s2 : Scene, (sceneTasks s2).length = 2 ∧
      (sceneTasks s2).head? = some (PoolTask.audio s2)) ∧
    (dispatchTasks shot).length = 2 * shot.length := by
  refine ⟨?_, fun s2 => ⟨rfl, rfl⟩, ?_⟩
  · unfold sceneTasks visualTask
    rw [if_neg h1, if_neg h2]
  · induction shot with
    | nil => rfl
    | cons a l ih =>
      simp only [dispatchTasks, List.flatMap_cons, List.length_append] at *
      simp [sceneTasks, ih]
      omega

/-- C10 witness: a scene whose `visual_type` is absent is dispatched to the
generated-video fetcher, alongside its audio task. -/
theorem dispatch_two_tasks_default_video_witness :
    sceneTasks ⟨7, "n", "p", none⟩ =
      [PoolTask.audio ⟨7, "n", "p", none⟩, PoolTask.genVideo ⟨7, "n", "p", none⟩] ∧
    (dispatchTasks [⟨7, "n", "p", none⟩, ⟨8, "m", "q", some "imge"⟩]).length = 2 * 2 :=
  ⟨(dispatch_two_tasks_default_video ⟨7, "n", "p", none⟩ [] (by decide) (by decide)).1,
   (dispatch_two_tasks_default_video ⟨7, "n", "p", none⟩
      [⟨7, "n", "p", none⟩, ⟨8, "m", "q", some "imge"⟩] (by decide) (by decide)).2.2⟩

/-- C7: one case analysis of the polling loop of `generate_video`
(video_maker_lib.py lines 126-137): a still-processing response (202) polls
again after the fixed 20-second sleep; a ready response (200) writes the
video bytes and exits the loop; any non-success response (a code >= 400,
exactly those `raise_for_status` raises on) terminates the fetch as a raised
failure without further polling; and a run of still-processing responses of
any length keeps the loop pending — there is no retry bound. -/
theorem generate_video_poll_policy (path : String) (code : Nat) (body : String)
    (rest : List (Nat × String)) (fs : FS) (elapsed polls : Nat) :
    (code = 202 →
      videoPollLoop path ((code, body) :: rest) fs elapsed polls =
        videoPollLoop path rest fs (elapsed + 20) (polls + 1)) ∧
    (code = 200 →
      videoPollLoop path ((code, body) :: rest) fs elapsed polls =
        ⟨fsWrite fs path body, PollStatus.done, elapsed + 20, polls + 1⟩) ∧
    (400 ≤ code →
      videoPollLoop path ((code, body) :: rest) fs elapsed polls =
        ⟨fs, PollStatus.raised code, elapsed + 20, polls + 1⟩) ∧
    (∀ k, videoPollLoop path (List.replicate k (202, body)) fs elapsed polls =
        ⟨fs, PollStatus.pending, elapsed + 20 * k, polls + k⟩) := by
  refine ⟨?_, ?_, ?_, ?_⟩
  · intro h
    subst h
    rw [videoPollLoop]
    norm_num
  · intro h
    subst h
    rw [videoPollLoop]
    norm_num
  · intro h
    have h200 : code ≠ 200 := by omega
    have h202 : code ≠ 202 := by omega
    rw [videoPollLoop, if_neg (by simpa using h200), if_neg (by simpa using h202),
      if_pos h]
  · intro k
    induction k generalizing elapsed polls with
    | zero => simp [videoPollLoop]
    | succ m ih =>
      rw [List.replicate_succ, videoPollLoop]
      norm_num [ih]
      constructor <;> omega

/-- C7 witness: concrete runs of the polling loop exercising all four
cases. -/
theorem generate_video_poll_policy_witness :
    (videoPollLoop "out" [(202, "x"), (200, "vid")] [] 0 0 =
        videoPollLoop "out" [(200, "vid")] [] 20 1) ∧
    (videoPollLoop "out" [(200, "vid")] [] 20 1 =
        ⟨fsWrite [] "out" "vid", PollStatus.done, 40, 2⟩) ∧
    (videoPollLoop "out" [(404, "err")] [] 0 0 =
        ⟨[], PollStatus.raised 404, 20, 1⟩) ∧
    (videoPollLoop "out" (List.replicate 3 (202, "x")) [] 0 0 =
        ⟨[], PollStatus.pending, 60, 3⟩) :=
  ⟨(generate_video_poll_policy "out" 202 "x" [(200, "vid")] [] 0 0).1 rfl,
   (generate_video_poll_policy "out" 200 "vid" [] [] 20 1).2.1 rfl,
   (generate_video_poll_policy "out" 404 "err" [] [] 0 0).2.2.1 (by norm_num),
   (generate_video_poll_policy "out" 202 "x" [] [] 0 0).2.2.2 3⟩

/-- C3: in the Video Assembler (video_maker_lib.py lines 158-182), a scene
whose audio file is absent is dropped from the built clips (without error —
`buildClips` is total), and a scene of the shot list whose audio file and at
least one visual asset are present is included. -/
theorem assemble_audio_drop_policy (fs : FS) (shot : List Scene) (s : Scene) :
    (fsHas fs (audioPath s.scene_number) = false →
      s ∉ buildClips fs (sortShotList shot)) ∧
    (s ∈ shot → fsHas fs (audioPath s.scene_number) = true →
      (fsHas fs (videoPath s.scene_number) || fsHas fs (imagePath s.scene_number)) = true →
      s ∈ buildClips fs (sortShotList shot)) := by
  constructor
  · intro ha hmem
    rw [mem_buildClips_sorted] at hmem
    simp [eligible, ha] at hmem
  · intro hmem ha hvi
    rw [mem_buildClips_sorted]
    exact ⟨hmem, by simp [eligible, ha, hvi]⟩

/-- C3 witness: scenes 1 and 3 have audio and a visual asset, scene 2 has no
audio; the assembled video contains exactly scenes 1 and 3. -/
theorem assemble_audio_drop_policy_witness :
    (⟨2, "b", "q", some "image"⟩ : Scene) ∉
      buildClips fs3scenes (sortShotList shot3scenes) ∧
    (⟨1, "a", "p", some "image"⟩ : Scene) ∈
      buildClips fs3scenes (sortShotList shot3scenes) ∧
    assemble_video fs3scenes shot3scenes =
      some [⟨1, "a", "p", some "image"⟩, ⟨3, "c", "r", some "video"⟩] :=
  ⟨(assemble_audio_drop_policy fs3scenes shot3scenes ⟨2, "b", "q", some "image"⟩).1
      (by decide),
   (assemble_audio_drop_policy fs3scenes shot3scenes ⟨1, "a", "p", some "image"⟩).2
      (by decide) (by decide) (by decide),
   by decide⟩

/-- C4: when no scene of the shot list has both a usable audio asset and a
visual asset, `assemble_video` writes no output file (result `none`) and
returns normally (line 184's early return). -/
theorem assemble_zero_eligible_noop (fs : FS) (shot : List Scene)
    (h : ∀ s ∈ shot, eligible fs s = false) :
    assemble_video fs shot = none := by
  unfold assemble_video
  have hempty : buildClips fs (sortShotList shot) = [] := by
    rw [buildClips_eq_filter, List.filter_eq_nil_iff]
    intro s hs
    rw [sortShotList, List.mem_insertionSort] at hs
    simp [h s hs]
  simp [hempty]

/-- C4 witness: a shot list whose only scene has an audio file but no visual
asset yields no output file. -/
theorem assemble_zero_eligible_noop_witness :
    assemble_video [(audioPath 1, "a1")] [⟨1, "a", "p", some "image"⟩] = none :=
  assemble_zero_eligible_noop [(audioPath 1, "a1")] [⟨1, "a", "p", some "image"⟩]
    (by decide)

/-- C9: a scene whose audio file exists but for which neither the video file
nor the image file exists at the deterministic visual paths is silently
dropped from the built clips (the second `continue`, line 173). -/
theorem assemble_missing_visual_drop (fs : FS) (shot : List Scene) (s : Scene)
    (ha : fsHas fs (audioPath s.scene_number) = true)
    (hv : fsHas fs (videoPath s.scene_number) = false)
    (hi : fsHas fs (imagePath s.scene_number) = false) :
    s ∉ buildClips fs (sortShotList shot) := by
  intro hmem
  rw [mem_buildClips_sorted] at hmem
  simp [eligible, ha, hv, hi] at hmem

/-- C9 witness: scene 4 has audio but neither visual asset and is dropped,
leaving no assembled output. -/
theorem assemble_missing_visual_drop_witness :
    (⟨4, "d", "s", some "video"⟩ : Scene) ∉
      buildClips [(audioPath 4, "a4")] (sortShotList [⟨4, "d", "s", some "video"⟩]) ∧
    assemble_video [(audioPath 4, "a4")] [⟨4, "d", "s", some "video"⟩] = none :=
  ⟨assemble_missing_visual_drop [(audioPath 4, "a4")] [⟨4, "d", "s", some "video"⟩]
      ⟨4, "d", "s", some "video"⟩ (by decide) (by decide) (by decide),
   by decide⟩

/-- C2: for a shot list with (as the data model requires) pairwise-distinct
scene numbers, the scenes of the assembled video appear in strictly
ascending `scene_number` order, whatever the order of the input list —
`assemble_video` iterates `sorted(shot_list, key=scene_number)`
(video_maker_lib.py line 159) and all later compositing keeps list order. -/
theorem assemble_scene_order (fs : FS) (shot : List Scene) (out : List Scene)
    (hnodup : (shot.map Scene.scene_number).Nodup)
    (hout : assemble_video fs shot = some out) :
    List.Sorted (fun a b => a < b) (out.map Scene.scene_number) := by
  have hbc : out = buildClips fs (sortShotList shot) := by
    unfold assemble_video at hout
    by_cases he : (buildClips fs (sortShotList shot)).isEmpty <;>
      simp [he] at hout
    exact hout.symm
  have hsub : out.Sublist (sortShotList shot) := by
    rw [hbc, buildClips_eq_filter]
    exact List.filter_sublist _
  have hsorted : List.Sorted sceneLE (sortShotList shot) :=
    List.sorted_insertionSort sceneLE shot
  have hle : List.Pairwise (fun a b => a ≤ b) (out.map Scene.scene_number) := by
    rw [List.pairwise_map]
    exact hsorted.sublist hsub
  have hperm : List.Perm ((sortShotList shot).map Scene.scene_number)
      (shot.map Scene.scene_number) :=
    (List.perm_insertionSort sceneLE shot).map _
  have hnd : (out.map Scene.scene_number).Nodup :=
    (hperm.nodup_iff.mpr hnodup).sublist (hsub.map _)
  exact (hle.and hnd).imp fun hab => lt_of_le_of_ne hab.1 hab.2

/-- C2 witness: the shot list ordered `[3, 1, 2]` with complete assets
assembles to scene order `[1, 2, 3]`, which is strictly ascending. -/
theorem assemble_scene_order_witness :
    assemble_video fsComplete shot312 =
      some [⟨1, "a", "p", some "image"⟩, ⟨2, "b", "q", some "image"⟩,
            ⟨3, "c", "r", some "video"⟩] ∧
    List.Sorted (fun a b => a < b)
      (([⟨1, "a", "p", some "image"⟩, ⟨2, "b", "q", some "image"⟩,
         ⟨3, "c", "r", some "video"⟩] : List Scene).map Scene.scene_number) :=
  ⟨by decide,
   assemble_scene_order fsComplete shot312
     [⟨1, "a", "p", some "image"⟩, ⟨2, "b", "q", some "image"⟩,
      ⟨3, "c", "r", some "video"⟩] (by decide) (by decide)⟩

/-- C8: for a scene assembled from a still image of size `w × h`, the
Ken-Burns clip of `create_animated_image_clip` (video_maker_lib.py lines
143-148) has frame size exactly `w × h` at every sampled time `t` of the
clip — the zoom is center-cropped back to the source size — and its
duration equals the scene's audio duration. -/
theorem ken_burns_frame_invariant (w h : ℕ) (d t : ℚ)
    (ht0 : 0 ≤ t) (htd : t ≤ d) :
    (create_animated_image_clip w h d).frameW t = w ∧
    (create_animated_image_clip w h d).frameH t = h ∧
    (create_animated_image_clip w h d).duration = d := by
  have hd : (0 : ℚ) ≤ d := le_trans ht0 htd
  have hdiv : (0 : ℚ) ≤ t / d := div_nonneg ht0 hd
  have hf : (1 : ℚ) ≤ 1 + (1 / 10) * (t / d) := by nlinarith
  have key : ∀ n : ℕ, min n (Nat.floor ((n : ℚ) * (1 + (1 / 10) * (t / d)))) = n := by
    intro n
    refine min_eq_left (Nat.le_floor ?_)
    exact le_mul_of_one_le_right (by positivity) hf
  exact ⟨key w, key h, rfl⟩

/-- C8 witness: a 640 × 360 image animated over a 5-second narration keeps
frame size 640 × 360 at time `t = 2` and has duration 5. -/
theorem ken_burns_frame_invariant_witness :
    (create_animated_image_clip 640 360 5).frameW 2 = 640 ∧
    (create_animated_image_clip 640 360 5).frameH 2 = 360 ∧
    (create_animated_image_clip 640 360 5).duration = 5 :=
  ken_burns_frame_invariant 640 360 5 2 (by norm_num) (by norm_num)

/-- C5 counterexample: with a search result whose first video lists a
360-pixel variant before a 1080-pixel variant, `download_stock_video`
(video_maker_lib.py line 103) writes the download of the FIRST listed
variant's link (`low.mp4`), not of the highest-available-quality variant
(`high.mp4`) — refuting "downloads the highest-available-quality file". -/
theorem stock_video_not_highest_quality_cex :
    fsRead (download_stock_video apiStub sceneStock []).1 (videoPath 5) =
      some (apiStub.httpGet "low.mp4") ∧
    highestQualityLink (apiStub.stockSearch "city") = some "high.mp4" ∧
    apiStub.httpGet "low.mp4" ≠ apiStub.httpGet "high.mp4" := by
  refine ⟨by decide, by decide, by decide⟩

/-- C5 amended: for a stock-footage scene whose target file is absent, a
search with zero results silently performs no write (line 101), and a
non-empty search result causes the FIRST listed file variant of the first
result to be downloaded and written to the deterministic video path
(line 103). -/
theorem download_stock_video_first_variant (api : Api) (scene : Scene) (fs : FS)
    (habs : fsHas fs (videoPath scene.scene_number) = false) :
    ((api.stockSearch scene.visual_prompt).videos = [] →
      download_stock_video api scene fs =
        (fs, [ApiCall.stockSearch scene.scene_number])) ∧
    (∀ v vrest f frest,
      (api.stockSearch scene.visual_prompt).videos = v :: vrest →
      v.video_files = f :: frest →
      download_stock_video api scene fs =
        (fsWrite fs (videoPath scene.scene_number) (api.httpGet f.link),
         [ApiCall.stockSearch scene.scene_number,
          ApiCall.stockDownload scene.scene_number])) := by
  constructor
  · intro hempty
    simp [download_stock_video, habs, hempty]
  · intro v vrest f frest hv hf
    simp [download_stock_video, habs, hv, hf]

/-- C5 amended witness: a zero-result search writes nothing; the two-variant
search downloads the first variant `low.mp4`. -/
theorem download_stock_video_first_variant_witness :
    download_stock_video apiStubEmpty sceneStock [] =
      ([], [ApiCall.stockSearch 5]) ∧
    download_stock_video apiStub sceneStock [] =
      (fsWrite [] (videoPath 5) (apiStub.httpGet "low.mp4"),
       [ApiCall.stockSearch 5, ApiCall.stockDownload 5]) :=
  ⟨(download_stock_video_first_variant apiStubEmpty sceneStock [] (by decide)).1 rfl,
   (download_stock_video_first_variant apiStub sceneStock [] (by decide)).2
     ⟨[⟨"low.mp4", 360⟩, ⟨"high.mp4", 1080⟩]⟩ []
     ⟨"low.mp4", 360⟩ [⟨"high.mp4", 1080⟩] rfl rfl⟩

theorem fsHas_videoPollLoop (path p : String) (resps : List (Nat × String))
    (fs : FS) (elapsed polls : Nat) (h : fsHas fs p = true) :
    fsHas (videoPollLoop path resps fs elapsed polls).fs p = true := by
  induction resps generalizing fs elapsed polls with
  | nil => exact h
  | cons r rest ih =>
    obtain ⟨code, body⟩ := r
    rw [videoPollLoop]
    split_ifs with h200 h202 h400
    · exact fsHas_fsWrite _ _ _ _ h
    · exact ih _ _ _ h
    · exact h
    · exact ih _ _ _ h

theorem fsHas_runTask (api : Api) (t : PoolTask) (fs : FS) (p : String)
    (h : fsHas fs p = true) : fsHas (runTask api t fs).1 p = true := by
  cases t with
  | audio s =>
    rw [runTask, generate_audio]
    split_ifs with he
    · exact h
    · exact fsHas_fsWrite _ _ _ _ h
  | image s =>
    rw [runTask, generate_image]
    split_ifs with he
    · exact h
    · exact fsHas_fsWrite _ _ _ _ h
  | stock s =>
    rw [runTask, download_stock_video]
    split_ifs with he
    · exact h
    · dsimp only
      split
      · exact h
      · split
        · exact h
        · exact fsHas_fsWrite _ _ _ _ h
  | genVideo s =>
    rw [runTask, generate_video]
    split_ifs with he
    · exact h
    · exact fsHas_videoPollLoop _ _ _ _ _ _ h

theorem runTask_calls_target_absent (api : Api) (t : PoolTask) (fs : FS)
    (c : ApiCall) (hmem : c ∈ (runTask api t fs).2) :
    fsHas fs (callTarget c) = false := by
  cases t with
  | audio s =>
    rw [runTask, generate_audio] at hmem
    split_ifs at hmem with he
    · simp at hmem
    · rw [List.mem_singleton] at hmem
      subst hmem
      simpa [callTarget] using he
  | image s =>
    rw [runTask, generate_image] at hmem
    split_ifs at hmem with he
    · simp at hmem
    · rw [List.mem_singleton] at hmem
      subst hmem
      simpa [callTarget] using he
  | stock s =>
    rw [runTask, download_stock_video] at hmem
    split_ifs at hmem with he
    · simp at hmem
    · dsimp only at hmem
      split at hmem
      · rw [List.mem_singleton] at hmem
        subst hmem
        simpa [callTarget] using he
      · split at hmem
        · rw [List.mem_singleton] at hmem
          subst hmem
          simpa [callTarget] using he
        · rcases List.mem_cons.mp hmem with rfl | hmem2
          · simpa [callTarget] using he
          · rw [List.mem_singleton] at hmem2
            subst hmem2
            simpa [callTarget] using he
  | genVideo s =>
    rw [runTask, generate_video] at hmem
    split_ifs at hmem with he
    · simp at hmem
    · rcases List.mem_cons.mp hmem with rfl | hmem2
      · simpa [callTarget] using he
      · have := (List.mem_replicate.mp hmem2).2
        subst this
        simpa [callTarget] using he

theorem runTasks_calls_target_absent (api : Api) (ts : List PoolTask) (fs : FS)
    (c : ApiCall) (hmem : c ∈ (runTasks api ts fs).2) :
    fsHas fs (callTarget c) = false := by
  induction ts generalizing fs with
  | nil => simp [runTasks] at hmem
  | cons t rest ih =>
    rw [runTasks] at hmem
    rcases List.mem_append.mp hmem with h1 | h2
    · exact runTask_calls_target_absent api t fs c h1
    · cases hfs : fsHas fs (callTarget c) with
      | false => rfl
      | true =>
        have hafter := fsHas_runTask api t fs (callTarget c) hfs
        have := ih _ h2
        rw [this] at hafter
        exact absurd hafter (by simp)

/-- C1: each fetcher, invoked when its deterministic target file already
exists, returns immediately with the filesystem unchanged and no remote API
call issued (the existence guards at video_maker_lib.py lines 59, 75, 93 and
115); consequently, a run of the Parallel Dispatcher over any shot list
never issues a remote call for an asset whose file already existed when the
run started. -/
theorem fetchers_idempotent_no_refetch (api : Api) (scene : Scene)
    (fs fs0 : FS) (shot : List Scene) (n : Int) :
    (fsHas fs (audioPath scene.scene_number) = true →
      generate_audio api scene fs = (fs, [])) ∧
    (fsHas fs (imagePath scene.scene_number) = true →
      generate_image api scene fs = (fs, [])) ∧
    (fsHas fs (videoPath scene.scene_number) = true →
      download_stock_video api scene fs = (fs, [])) ∧
    (fsHas fs (videoPath scene.scene_number) = true →
      generate_video api scene fs = (fs, [])) ∧
    (fsHas fs0 (audioPath n) = true →
      ApiCall.tts n ∉ (runDispatcher api shot fs0).2) ∧
    (fsHas fs0 (imagePath n) = true →
      ApiCall.imageGen n ∉ (runDispatcher api shot fs0).2) ∧
    (fsHas fs0 (videoPath n) = true →
      ApiCall.stockSearch n ∉ (runDispatcher api shot fs0).2 ∧
      ApiCall.stockDownload n ∉ (runDispatcher api shot fs0).2 ∧
      ApiCall.videoSubmit n ∉ (runDispatcher api shot fs0).2 ∧
      ApiCall.videoPoll n ∉ (runDispatcher api shot fs0).2) := by
  have noCall : ∀ c : ApiCall, fsHas fs0 (callTarget c) = true →
      c ∉ (runDispatcher api shot fs0).2 := by
    intro c hc hmem
    rw [runTasks_calls_target_absent api (dispatchTasks shot) fs0 c hmem] at hc
    exact absurd hc (by simp)
  refine ⟨?_, ?_, ?_, ?_, ?_, ?_, ?_⟩
  · intro h
    simp [generate_audio, h]
  · intro h
    simp [generate_image, h]
  · intro h
    simp [download_stock_video, h]
  · intro h
    simp [generate_video, h]
  · exact fun h => noCall (ApiCall.tts n) h
  · exact fun h => noCall (ApiCall.imageGen n) h
  · exact fun h =>
      ⟨noCall (ApiCall.stockSearch n) h, noCall (ApiCall.stockDownload n) h,
       noCall (ApiCall.videoSubmit n) h, noCall (ApiCall.videoPoll n) h⟩

/-- C1 witness: with scene 1's audio, image and video files already present,
each fetcher returns the filesystem unchanged with no call, and a dispatcher
run over a shot list containing scene 1 issues no call for scene 1's
assets. -/
theorem fetchers_idempotent_no_refetch_witness :
    generate_audio apiStub ⟨1, "a", "p", some "image"⟩ fsComplete =
      (fsComplete, []) ∧
    generate_image apiStub ⟨1, "a", "p", some "image"⟩ fsComplete =
      (fsComplete, []) ∧
    ApiCall.tts 1 ∉ (runDispatcher apiStub shot3scenes fsComplete).2 ∧
    ApiCall.imageGen 1 ∉ (runDispatcher apiStub shot3scenes fsComplete).2 ∧
    ApiCall.videoSubmit 3 ∉ (runDispatcher apiStub shot3scenes fsComplete).2 :=
  ⟨(fetchers_idempotent_no_refetch apiStub ⟨1, "a", "p", some "image"⟩
      fsComplete fsComplete shot3scenes 1).1 (by decide),
   (fetchers_idempotent_no_refetch apiStub ⟨1, "a", "p", some "image"⟩
      fsComplete fsComplete shot3scenes 1).2.1 (by decide),
   (fetchers_idempotent_no_refetch apiStub ⟨1, "a", "p", some "image"⟩
      fsComplete fsComplete shot3scenes 1).2.2.2.2.1 (by decide),
   (fetchers_idempotent_no_refetch apiStub ⟨1, "a", "p", some "image"⟩
      fsComplete fsComplete shot3scenes 1).2.2.2.2.2.1 (by decide),
   ((fetchers_idempotent_no_refetch apiStub ⟨1, "a", "p", some "image"⟩
      fsComplete fsComplete shot3scenes 3).2.2.2.2.2.2 (by decide)).2.2.1⟩
